import Mathlib

/-!
Verification of the SmartFill.AI context-classification and content-resolution
pipeline (`src/autofill.py`) against its natural-language specification.

The Python code is shallowly embedded: Python strings become `String`,
Python's nested dict/list/str/bool/None values become the inductive `PyVal`,
fallible operations return `Except Unit` (an uncaught Python exception is
`Except.error ()`), and the external LLM backend / keyring / encryption
capabilities are modelled as explicit parameters.  Every definition cites the
line numbers of `src/autofill.py` it is translated from.
-/

/-! ## String utilities: Python's `in` and `.lower()` on strings -/

/-- `charsContain pat s` is Python's `pat in s` on the underlying character
lists: true iff `pat` occurs as a contiguous substring of `s` (the empty
pattern is contained in every string, as in Python). -/
def charsContain (pat : List Char) : List Char → Bool
  | [] => pat.isEmpty
  | c :: rest => List.isPrefixOf pat (c :: rest) || charsContain pat rest

/-- Python's substring test `pat in s`. -/
def strContains (s pat : String) : Bool := charsContain pat.toList s.toList

/-- Python's `any(kw in s for kw in kws)`. -/
def anyKw (s : String) (kws : List String) : Bool :=
  kws.any (fun kw => strContains s kw)

/-- Python's `a or b` on strings: the empty string is falsy. -/
def pyOr (a b : String) : String := if a = "" then b else a

/-- ASCII lowercasing of one character (`A`-`Z` to `a`-`z`). -/
def lowerChar (c : Char) : Char :=
  if 65 ≤ c.toNat ∧ c.toNat ≤ 90 then Char.ofNat (c.toNat + 32) else c

/-- Python's `str.lower()` restricted to ASCII: every keyword and label this
code compares case-insensitively is ASCII or CJK, and CJK characters are
unaffected by lowercasing. -/
def pyLower (s : String) : String := String.mk (s.toList.map lowerChar)

/-- Python's slice `s[:n]`: the first `n` code points. -/
def pyTake (s : String) (n : Nat) : String := String.mk (s.toList.take n)

/-! ## Python values

`PyVal` models the JSON-like values stored in the profile and config
dictionaries: strings, booleans, `None`, lists, and string-keyed dicts
(association lists, first binding wins, as produced by Python dicts). -/

inductive PyVal where
  | str (s : String)
  | bool (b : Bool)
  | none
  | list (xs : List PyVal)
  | dict (entries : List (String × PyVal))

/-- Python truthiness of a value (`if value:`): empty strings, empty
containers, `False` and `None` are falsy. -/
def truthy : PyVal → Bool
  | .str s => s ≠ ""
  | .bool b => b
  | .none => false
  | .list xs => ¬ xs.isEmpty
  | .dict es => ¬ es.isEmpty

/-- Python dict assignment `d[k] = v`: replaces the first binding of `k`
in place, or appends a new binding at the end (dict insertion order). -/
def dictSet (d : List (String × PyVal)) (k : String) (v : PyVal) :
    List (String × PyVal) :=
  match d with
  | [] => [(k, v)]
  | (k', v') :: rest =>
      if k' = k then (k, v) :: rest else (k', v') :: dictSet rest k v

/-- Python dict deletion `del d[k]`.  Real Python dicts have unique keys, so
removing every binding of `k` coincides with removing "the" binding. -/
def dictDel (d : List (String × PyVal)) (k : String) : List (String × PyVal) :=
  d.filter (fun e => e.1 ≠ k)

/-- Python's `k in v` membership test, which raises `TypeError` on values that
are not containers or strings (modelled as `Except.error ()`).  On a dict it
tests the keys, on a list it compares `k` with each element by `==` (only a
`str` element can equal a string), on a string it is the substring test. -/
def pyIn (k : String) : PyVal → Except Unit Bool
  | .dict es => .ok (List.lookup k es).isSome
  | .list xs => .ok (xs.any (fun v => match v with | .str s => s = k | _ => false))
  | .str s => .ok (strContains s k)
  | .bool _ => .error ()
  | .none => .error ()

/-- Python subscription `v[k]` with a string key: a dict lookup (`KeyError`
when absent), and a `TypeError` on every other value. -/
def pySubscript (v : PyVal) (k : String) : Except Unit PyVal :=
  match v with
  | .dict es =>
      match List.lookup k es with
      | some w => .ok w
      | Option.none => .error ()
  | _ => .error ()

/-! ## `UserProfile.get_value` (src/autofill.py lines 341-343)

```python
def get_value(self, section: str, key: str) -> Any:
    return self.data.get(section, {}).get(key, None)
```

`self.data.get(section, {})` never fails; the second `.get` is a *dict*
method, so when the stored section value is a list (as `work_experience`,
`education` and `projects` are) it raises
`AttributeError: 'list' object has no attribute 'get'`.  The code also calls
`get_value(section, None)` (src/autofill.py lines 1285, 1301, 1318, 1332,
1358-1360), hence `key : Option String`; no profile dict carries the key
`None`, so on a dict section that lookup yields `None`. -/
def get_value (data : List (String × PyVal)) (sect : String)
    (key : Option String) : Except Unit PyVal :=
  match List.lookup sect data with
  | Option.none => .ok .none
  | some (.dict es) =>
      match key with
      | some k => .ok ((List.lookup k es).getD .none)
      | Option.none => .ok .none
  | some _ => .error ()

/-! ## Classification results -/

/-- The four-key analysis dict produced by `ContextAnalyzer`
(`content_type`, `field_type`, `recommended_style`, `recommended_length`). -/
structure Analysis where
  content_type : String
  field_type : String
  recommended_style : String
  recommended_length : String
deriving DecidableEq, Repr

/-- `ContextAnalyzer._default_analysis` (src/autofill.py lines 1231-1238):

```python
return {
    "content_type": "Unknown",
    "field_type": field_label if field_label != "Unknown" else "Generic Text",
    "recommended_style": "Professional",
    "recommended_length": "Medium",
}
``` -/
def default_analysis (field_label : String) : Analysis where
  content_type := "Unknown"
  field_type := if field_label ≠ "Unknown" then field_label else "Generic Text"
  recommended_style := "Professional"
  recommended_length := "Medium"

/-- Evaluation of the Python dict literal
`{"field_type": ft, "content_type": ct, **defaults}` used by most rules of
`_simple_field_analysis`.  Python dict literals evaluate their entries left to
right with later entries overwriting earlier ones; the `**defaults` splat
comes *last* and `_default_analysis(label)` supplies all four keys, so the
explicitly written `field_type`/`content_type` entries are overwritten and the
literal evaluates to `defaults` itself. -/
def splatMerge2 (_ft _ct : String) (defaults : Analysis) : Analysis := defaults

/-- Evaluation of `{"field_type": ft, **defaults}` (same overwrite rule as
`splatMerge2`). -/
def splatMerge1 (_ft : String) (defaults : Analysis) : Analysis := defaults

/-! ## `ContextAnalyzer._simple_field_analysis` (src/autofill.py lines 953-1229)

Translated rule for rule in source order.  Keyword lists are copied verbatim.
Each branch's comment quotes the `field_type` entry of the Python dict
literal at that line. -/
def simple_field_analysis (label role text : String) : Option Analysis :=
  let label_lower := pyLower label
  let role_lower := pyLower role
  let text_lower := pyLower text
  -- lines 961-977: resume-context detection in the surrounding text
  let resume_context := anyKw text_lower
    ["resume", "cv", "curriculum vitae", "job application",
     "职位", "简历", "求职", "应聘"]
  -- lines 979-997: "Email Address"
  if anyKw label_lower ["email", "e-mail", "mail address", "邮箱", "电子邮件",
      "联系邮箱"] then
    some (splatMerge2 "Email Address"
      (if resume_context then "Resume Form" else "Contact Information")
      (default_analysis label))
  -- lines 998-1016: "Phone Number"
  else if anyKw label_lower ["phone", "mobile", "contact number", "电话",
      "手机", "联系电话", "联系方式"] then
    some (splatMerge2 "Phone Number"
      (if resume_context then "Resume Form" else "Contact Information")
      (default_analysis label))
  -- lines 1017-1027: "Full Name"
  else if anyKw label_lower ["name", "full name", "your name", "姓名",
      "全名"] then
    some (splatMerge2 "Full Name"
      (if resume_context then "Resume Form" else "Personal Information")
      (default_analysis label))
  -- lines 1028-1037: "Street Address"
  else if anyKw label_lower ["address", "street", "地址", "街道", "住址"] then
    some (splatMerge2 "Street Address"
      (if resume_context then "Resume Form" else "Contact Information")
      (default_analysis label))
  -- lines 1038-1045: "City"
  else if anyKw label_lower ["city", "城市"] then
    some (splatMerge2 "City"
      (if resume_context then "Resume Form" else "Contact Information")
      (default_analysis label))
  -- lines 1046-1053: "State/Province"
  else if anyKw label_lower ["state", "province", "省份", "州"] then
    some (splatMerge2 "State/Province"
      (if resume_context then "Resume Form" else "Contact Information")
      (default_analysis label))
  -- lines 1054-1061: "Zip/Postal Code"
  else if anyKw label_lower ["zip", "postal code", "邮编", "邮政编码"] then
    some (splatMerge2 "Zip/Postal Code"
      (if resume_context then "Resume Form" else "Contact Information")
      (default_analysis label))
  -- lines 1062-1069: "Country"
  else if anyKw label_lower ["country", "国家"] then
    some (splatMerge2 "Country"
      (if resume_context then "Resume Form" else "Contact Information")
      (default_analysis label))
  -- lines 1072-1091: "Education" (explicit dict, no splat)
  else if anyKw label_lower ["education", "school", "university", "college",
      "degree", "学历", "教育", "学校", "大学"] then
    some { field_type := "Education", content_type := "Resume Form",
           recommended_length := "Medium", recommended_style := "Professional" }
  -- lines 1092-1108: "Work Experience" (explicit dict, no splat)
  else if anyKw label_lower ["experience", "work history", "employment",
      "工作经历", "工作经验", "职业经历"] then
    some { field_type := "Work Experience", content_type := "Resume Form",
           recommended_length := "Long", recommended_style := "Professional" }
  -- lines 1109-1117: "Skills" (explicit dict, no splat)
  else if anyKw label_lower ["skills", "abilities", "技能", "能力", "专长"] then
    some { field_type := "Skills", content_type := "Resume Form",
           recommended_length := "Medium", recommended_style := "Professional" }
  -- lines 1118-1134: "Profile Summary" (explicit dict, no splat)
  else if anyKw label_lower ["summary", "profile", "objective", "个人简介",
      "自我介绍", "求职目标"] then
    some { field_type := "Profile Summary", content_type := "Resume Form",
           recommended_length := "Medium", recommended_style := "Professional" }
  -- lines 1135-1143: "Projects" (explicit dict, no splat)
  else if anyKw label_lower ["projects", "portfolio", "项目经验", "作品集"] then
    some { field_type := "Projects", content_type := "Resume Form",
           recommended_length := "Medium", recommended_style := "Professional" }
  -- lines 1144-1153: "Achievements" (explicit dict, no splat)
  else if anyKw label_lower ["achievements", "awards", "honors", "成就",
      "奖项", "荣誉"] then
    some { field_type := "Achievements", content_type := "Resume Form",
           recommended_length := "Medium", recommended_style := "Professional" }
  -- lines 1154-1160: "Languages" (explicit dict, no splat)
  else if anyKw label_lower ["languages", "语言", "外语"] then
    some { field_type := "Languages", content_type := "Resume Form",
           recommended_length := "Short", recommended_style := "Professional" }
  -- lines 1161-1170: "Certifications" (explicit dict, no splat)
  else if anyKw label_lower ["certifications", "licenses", "证书", "认证",
      "执照"] then
    some { field_type := "Certifications", content_type := "Resume Form",
           recommended_length := "Medium", recommended_style := "Professional" }
  -- lines 1171-1177: "References" (explicit dict, no splat)
  else if anyKw label_lower ["references", "推荐人", "推荐信"] then
    some { field_type := "References", content_type := "Resume Form",
           recommended_length := "Medium", recommended_style := "Professional" }
  -- lines 1180-1181: "Password"
  else if anyKw label_lower ["password", "secret", "密码"] then
    some (splatMerge1 "Password" (default_analysis label))
  -- lines 1182-1183: "Search Query"
  else if anyKw label_lower ["search", "find", "搜索", "查找"] then
    some (splatMerge1 "Search Query" (default_analysis label))
  -- lines 1184-1189: "Email Subject"
  else if anyKw label_lower ["subject", "主题"] then
    some (splatMerge2 "Email Subject" "Email Composition"
      (default_analysis label))
  -- lines 1190-1197: "Company Name"
  else if anyKw label_lower ["company", "organization", "公司", "组织"] then
    some (splatMerge2 "Company Name"
      (if resume_context then "Resume Form" else "Professional Information")
      (default_analysis label))
  -- lines 1198-1208: "Job Title"
  else if anyKw label_lower ["job title", "position", "role", "职位", "职称",
      "角色"] then
    some (splatMerge2 "Job Title"
      (if resume_context then "Resume Form" else "Professional Information")
      (default_analysis label))
  -- lines 1209-1213: "Message Body"
  else if strContains role_lower "text area" && anyKw label_lower
      ["comment", "message", "body", "评论", "留言", "正文"] then
    some (splatMerge1 "Message Body" (default_analysis label))
  -- lines 1216-1217: role-based "Password"
  else if strContains role_lower "password" then
    some (splatMerge1 "Password" (default_analysis label))
  -- lines 1218-1219: role-based "Search Query"
  else if strContains role_lower "search" then
    some (splatMerge1 "Search Query" (default_analysis label))
  -- lines 1222-1227: resume-context fallback "Resume Field"
  else if resume_context then
    some (splatMerge2 "Resume Field" "Resume Form" (default_analysis label))
  -- line 1229
  else Option.none

/-! ## Python `str()` / `repr()` rendering (used inside f-strings) -/

mutual

/-- Python `repr()` restricted to the values of `PyVal` (string escaping
inside `repr` of a string is not reproduced; no claim evaluates it). -/
def pyRepr : PyVal → String
  | .str s => "\x27" ++ s ++ "\x27"
  | .bool b => if b then "True" else "False"
  | .none => "None"
  | .list xs => "[" ++ String.intercalate ", " (pyReprL xs) ++ "]"
  | .dict es => "\x7b" ++ String.intercalate ", " (pyReprD es) ++ "\x7d"

/-- `repr` of the elements of a list. -/
def pyReprL : List PyVal → List String
  | [] => []
  | v :: vs => pyRepr v :: pyReprL vs

/-- `repr` of the entries of a dict. -/
def pyReprD : List (String × PyVal) → List String
  | [] => []
  | (k, v) :: es => ("\x27" ++ k ++ "\x27: " ++ pyRepr v) :: pyReprD es

end

/-- Python `str()`, as applied by f-string interpolation and by
`return str(value)` (src/autofill.py line 1422). -/
def pyToStr : PyVal → String
  | .str s => s
  | v => pyRepr v

/-- The `.get(k, dflt)` method call on a value: dict lookup with default, and
`AttributeError` on any non-dict receiver. -/
def pyGet (v : PyVal) (k : String) (dflt : PyVal) : Except Unit PyVal :=
  match v with
  | .dict es => .ok ((List.lookup k es).getD dflt)
  | _ => .error ()

/-- Python iteration `for x in v`: lists yield their elements, strings their
characters, dicts their keys; iterating `None` or a bool raises `TypeError`. -/
def listIter : PyVal → Except Unit (List PyVal)
  | .list xs => .ok xs
  | .str s => .ok (s.toList.map (fun c => .str (String.singleton c)))
  | .dict es => .ok (es.map (fun e => .str e.1))
  | .bool _ => .error ()
  | .none => .error ()

/-- Python `sep.join(xs)`: every element must be a `str`, otherwise
`TypeError` is raised. -/
def joinPyStrs (sep : String) (xs : List PyVal) : Except Unit String := do
  let ss ← xs.mapM (fun v => match v with
    | PyVal.str s => Except.ok s
    | _ => Except.error ())
  return String.intercalate sep ss

/-- Python `str.title()` restricted to ASCII letters: the first letter of
every alphabetic run is uppercased, the rest lowercased (the skills category
keys it is applied to are ASCII identifiers such as `ai_frameworks`). -/
def titleCaseAux : Bool → List Char → List Char
  | _, [] => []
  | prevAlpha, c :: cs =>
      (if c.isAlpha then (if prevAlpha then c.toLower else c.toUpper) else c)
        :: titleCaseAux c.isAlpha cs

/-- Python `str.title()` (see `titleCaseAux`). -/
def titleCase (s : String) : String := String.mk (titleCaseAux false s.toList)

/-! ## `LLMManager.generate_text` (src/autofill.py lines 745-851)

```python
def generate_text(self, prompt: str, context: Dict = None) -> str:
    provider = self.config.get("llm", "provider")
    model = self.config.get(
        "llm", model
    )  # Use specific model key based on provider
    ...
```

Line 748 reads the local variable `model` on the right-hand side of its own
first assignment.  `model` is not a module-level name, so every call raises
`UnboundLocalError` at line 748 — before the `provider == "none"` check
(line 754), before the `try` block that starts at line 789, and therefore
before any backend request or any of the error handlers (lines 840-851) that
would have produced the `"Error..."` strings. -/
def generate_text (_prompt : String) : Except Unit String := .error ()

/-! ## Accessibility snapshots and `ContextAnalyzer.analyze_context`
(src/autofill.py lines 861-951)

A missing key is modelled by `""`: for `title`/`placeholder` and
`role_description`/`role` the code collapses missing and empty through
Python's falsy `or` chains (lines 865-874), and `app_name`/`window_title`
never influence the returned analysis. -/

structure Snapshot where
  app_name : String := ""
  window_title : String := ""
  title : String := ""
  placeholder : String := ""
  role : String := ""
  role_description : String := ""
  surrounding_text : String := ""

/-- Outcome of the `self.llm.generate_text(prompt)` call at line 913: either
the call raises (in the shipped code it always does, see `generate_text`), or
it returns a response string. -/
inductive LLMOutcome where
  | raisesExc
  | returns (s : String)

/-- `re.search(r"\x7b.*\x7d", result_str, re.DOTALL)` (line 916): with a
greedy `.*` that may span newlines, the match — when one exists — runs from
the first `{` of the string to the last `}`, provided that `}` comes after
that `{`. -/
def extract_json_span (s : String) : Option String :=
  let cs := s.toList
  match cs.findIdx? (fun c => c = Char.ofNat 123) with
  | Option.none => Option.none
  | some i =>
      match cs.reverse.findIdx? (fun c => c = Char.ofNat 125) with
      | Option.none => Option.none
      | some rj =>
          let j := cs.length - 1 - rj
          if i < j then some (String.mk ((cs.drop i).take (j - i + 1)))
          else Option.none

/-- The model-backed pass of `analyze_context` (lines 912-951) runs after
the deterministic pass returned nothing; `validate_analysis` is its tail:
the result of `json.loads` on the extracted span, coarsened to an optional
flat string-valued object — `Option.none` covers `json.JSONDecodeError`
(caught at line 943); values of a successfully parsed object are kept as
strings, which is all the downstream code the claims touch distinguishes.
Every failure — the call raising (caught at line 949), no JSON-looking span
(line 937), a parse failure (line 943), or a missing required key (line
932) — returns `_default_analysis(field_label)`. -/
def validate_analysis (field_label : String) :
    Option (List (String × String)) → Analysis
  | Option.none => default_analysis field_label
  | some obj =>
      if (List.lookup "content_type" obj).isSome &&
          (List.lookup "field_type" obj).isSome &&
          (List.lookup "recommended_style" obj).isSome &&
          (List.lookup "recommended_length" obj).isSome then
        { content_type := (List.lookup "content_type" obj).getD ""
          field_type := (List.lookup "field_type" obj).getD ""
          recommended_style := (List.lookup "recommended_style" obj).getD ""
          recommended_length := (List.lookup "recommended_length" obj).getD "" }
      else default_analysis field_label

/-- See the section comment: the model-backed pass dispatches on the call
outcome, the extracted span, and the validated parse (`validate_analysis`
covers lines 919-941: `json.loads` failure, the four-key validation, and the
fallbacks). -/
def llm_analysis_pass (parse : String → Option (List (String × String)))
    (field_label : String) (outcome : LLMOutcome) : Analysis :=
  match outcome with
  | .raisesExc => default_analysis field_label
  | .returns s =>
    match extract_json_span s with
    | Option.none => default_analysis field_label
    | some js => validate_analysis field_label (parse js)

/-- `field_label = info.get("title") or info.get("placeholder") or "Unknown"`
(lines 865-869). -/
def snap_field_label (info : Snapshot) : String :=
  pyOr info.title (pyOr info.placeholder "Unknown")

/-- `field_role = info.get("role_description") or info.get("role") or
"Unknown"` (lines 870-874). -/
def snap_field_role (info : Snapshot) : String :=
  pyOr info.role_description (pyOr info.role "Unknown")

/-- `surrounding_text = info.get("surrounding_text", "")[:500]`
(lines 875-877). -/
def snap_text (info : Snapshot) : String := pyTake info.surrounding_text 500

/-- `ContextAnalyzer.analyze_context` (lines 861-951): extract the label,
role and bounded surrounding text, run the deterministic pass, and fall back
to the model-backed pass. -/
def analyze_context (parse : String → Option (List (String × String)))
    (outcome : LLMOutcome) (info : Snapshot) : Analysis :=
  match simple_field_analysis (snap_field_label info) (snap_field_role info)
      (snap_text info) with
  | some a => a
  | Option.none => llm_analysis_pass parse (snap_field_label info) outcome

/-- `analyze_context` as deployed: the model-backed pass uses the outcome of
the actual `generate_text`, which always raises (so the parse function is
never consulted). -/
def analyze_context_deployed (info : Snapshot) : Analysis :=
  analyze_context (fun _ => Option.none)
    (match generate_text "" with
     | .error _ => LLMOutcome.raisesExc
     | .ok s => LLMOutcome.returns s) info

/-! ## `ContextAnalyzer.generate_content` (src/autofill.py lines 1240-1492) -/

/-- Outcome of one `generate_content` call.
* `direct s` — the call returned the string `s` without entering the
  model-backed generation step (no backend involvement);
* `genRaised` — the call fell through to step 3, the model-backed generation
  (lines 1434-1492); that step always raises before any backend request is
  issued: building the prompt renders `get_profile_summary()` (line 1435),
  which can raise on malformed profile data, and otherwise the
  `self.llm.generate_text(prompt, ...)` call at line 1482 raises
  `UnboundLocalError` at its line 748 (see `generate_text`), so the step's
  only normal exit (line 1492) is unreachable and no string — error-prefixed
  or otherwise — is ever returned on this path;
* `raised` — the call raised before reaching step 3 (for example the
  `AttributeError` from `UserProfile.get_value` on a list-valued section). -/
inductive Resolution where
  | direct (s : String)
  | genRaised
  | raised
deriving DecidableEq, Repr

/-- The `profile_map` table (src/autofill.py lines 1255-1277), verbatim:
`field_type ↦ (section, key)`, with `key = none` for the complex fields that
the source maps to `(section, None)`. -/
def profile_map : List (String × String × Option String) :=
  [("Email Address", "basic", some "email"),
   ("Phone Number", "basic", some "phone"),
   ("Full Name", "basic", some "name"),
   ("Street Address", "basic", some "location"),
   ("City", "basic", some "location"),
   ("State/Province", "basic", some "location"),
   ("Country", "basic", some "location"),
   ("Website", "portfolio", some "personal_website"),
   ("Job Title", "work_experience", some "title"),
   ("Company Name", "work_experience", some "company"),
   ("Education", "education", Option.none),
   ("Work Experience", "work_experience", Option.none),
   ("Skills", "skills", Option.none),
   ("Projects", "projects", Option.none),
   ("Profile Summary", "basic", Option.none),
   ("Achievements", "skills", some "achievements"),
   ("Languages", "skills", Option.none),
   ("Certifications", "skills", some "certifications")]

/-- Steps 2 and 3 of `generate_content` (lines 1429-1492), reached when the
profile-map step returned nothing: the `field_type == "Password"` suppression
(note the *case-sensitive* string comparison at line 1430) returns the fixed
placeholder `"******"`; everything else falls into model-backed generation,
which raises (see `Resolution.genRaised`). -/
def resolver_tail (field_type : String) : Resolution :=
  if field_type = "Password" then .direct "******"
  else
    match generate_text field_type with
    | .error _ => .genRaised
    | .ok s => .direct s

/-- One education entry (lines 1293-1295):
`f"{edu.get('school', '')}, {edu.get('degree', '')} in {edu.get('major', '')} ({edu.get('period', '')})"`;
`.get` raises `AttributeError` on a non-dict entry. -/
def eduEntry (edu : PyVal) : Except Unit String :=
  match edu with
  | .dict es =>
      .ok (pyToStr ((List.lookup "school" es).getD (.str "")) ++ ", " ++
        pyToStr ((List.lookup "degree" es).getD (.str "")) ++ " in " ++
        pyToStr ((List.lookup "major" es).getD (.str "")) ++ " (" ++
        pyToStr ((List.lookup "period" es).getD (.str "")) ++ ")")
  | _ => .error ()

/-- One work-experience entry (lines 1305-1310): the header line
`f"{job.get('title', '')} at {job.get('company', '')} ({job.get('period', '')})\n"`
followed, when `highlights` is truthy, by `"\n".join` of one `• ` line per
highlight. -/
def workEntry (job : PyVal) : Except Unit String :=
  match job with
  | .dict es =>
      let base := pyToStr ((List.lookup "title" es).getD (.str "")) ++ " at " ++
        pyToStr ((List.lookup "company" es).getD (.str "")) ++ " (" ++
        pyToStr ((List.lookup "period" es).getD (.str "")) ++ ")\n"
      let highlights := (List.lookup "highlights" es).getD (.list [])
      if truthy highlights then
        match listIter highlights with
        | .error _ => .error ()
        | .ok hs =>
            .ok (base ++ String.intercalate "\n"
              (hs.map (fun h => "• " ++ pyToStr h)))
      else .ok base
  | _ => .error ()

/-- The skills formatting loop (lines 1321-1326): one line per category whose
value is a non-empty list, `f"{category.replace('_', ' ').title()}: {', '.join(skills_list)}"`;
`', '.join` raises `TypeError` on a non-string skill. -/
def skillsLines : List (String × PyVal) → Except Unit (List String)
  | [] => .ok []
  | (cat, sl) :: rest =>
      match sl with
      | .list (x :: xs) => do
          let joined ← joinPyStrs ", " (x :: xs)
          let tail ← skillsLines rest
          return (titleCase (cat.replace "_" " ") ++ ": " ++ joined) :: tail
      | _ => skillsLines rest

/-- One project entry (lines 1340-1351): name line; a description line when
the `description` *key is present* (regardless of truthiness); an
`Achievement: ` line when the `achievement` key is present; then bullet
highlights when truthy. -/
def projEntry (project : PyVal) : Except Unit String :=
  match project with
  | .dict es =>
      let entry := pyToStr ((List.lookup "name" es).getD (.str "")) ++ "\n"
      let entry := if (List.lookup "description" es).isSome then
          entry ++ pyToStr ((List.lookup "description" es).getD (.str "")) ++ "\n"
        else entry
      let entry := if (List.lookup "achievement" es).isSome then
          entry ++ "Achievement: " ++
            pyToStr ((List.lookup "achievement" es).getD (.str "")) ++ "\n"
        else entry
      let highlights := (List.lookup "highlights" es).getD (.list [])
      if truthy highlights then
        match listIter highlights with
        | .error _ => .error ()
        | .ok hs =>
            .ok (entry ++ String.intercalate "\n"
              (hs.map (fun h => "• " ++ pyToStr h)))
      else .ok entry
  | _ => .error ()

/-- The "Profile Summary" synthesis (lines 1356-1396).  Each of the three
`get_value(section, None)` reads raises `AttributeError` when the stored
section value is a list (the shipped shape of `work_experience`); when a read
returns a falsy value, the `or {}` / `or []` defaults apply.  The
`if work_exp and len(work_exp) > 0` guard calls `len` — a `TypeError` on a
truthy non-sequence.  Parts are joined by `". ".join(summary_parts)` and an
empty result falls through to generation. -/
def profileSummaryStep (data : List (String × PyVal)) : Resolution :=
  match get_value data "basic" Option.none with
  | .error _ => .raised
  | .ok bv =>
    let basic_info := if truthy bv then bv else .dict []
    match get_value data "work_experience" Option.none with
    | .error _ => .raised
    | .ok wv =>
      let work_exp := if truthy wv then wv else .list []
      match get_value data "skills" Option.none with
      | .error _ => .raised
      | .ok sv =>
        let skills_data := if truthy sv then sv else .dict []
        match pyGet basic_info "name" (.str ""),
            pyGet basic_info "location" (.str "") with
        | .ok name, .ok location =>
          let rt_rc : Except Unit (PyVal × PyVal) :=
            match work_exp with
            | .list (w0 :: _) => do
                let t ← pyGet w0 "title" (.str "")
                let c ← pyGet w0 "company" (.str "")
                return (t, c)
            | .list [] => .ok (.str "", .str "")
            | w => if truthy w then .error () else .ok (.str "", .str "")
          match rt_rc with
          | .error _ => .raised
          | .ok (rt, rc) =>
            match skills_data with
            | .dict es =>
              let key_skills := es.foldr (fun e acc =>
                (match e.2 with
                 | PyVal.list (x :: xs) => (x :: xs).take 3
                 | _ => []) ++ acc) []
              let parts : List PyVal :=
                (if truthy name then [name] else []) ++
                (if truthy rt && truthy rc then
                    [.str (pyToStr rt ++ " at " ++ pyToStr rc)]
                  else if truthy rt then [rt] else []) ++
                (if truthy location then
                    [.str ("Based in " ++ pyToStr location)] else [])
              let skilled : Except Unit (List PyVal) :=
                if key_skills.isEmpty then .ok [] else
                  match joinPyStrs ", " (key_skills.take 5) with
                  | .error _ => .error ()
                  | .ok j => .ok [.str ("Skilled in " ++ j)]
              match skilled with
              | .error _ => .raised
              | .ok sk =>
                match joinPyStrs ". " (parts ++ sk) with
                | .error _ => .raised
                | .ok value =>
                    if value ≠ "" then .direct value
                    else resolver_tail "Profile Summary"
            | _ => .raised
        | _, _ => .raised

/-- The complex-field branch of step 1 (`key is None`, lines 1282-1401): the
`if/elif` chain on `field_type`; a field type that matches no arm (only
"Languages", mapped to `("skills", None)`) falls to the warning at line 1399
and then into steps 2-3 (`resolver_tail`).  Formatting branches return
*unconditionally* once the section value is truthy and has the expected
container shape — including an empty-string render. -/
def complexField (field_type sect : String)
    (data : List (String × PyVal)) : Resolution :=
  if field_type = "Education" then
    match get_value data sect Option.none with
    | .error _ => .raised
    | .ok v =>
      match v with
      | .list (e :: es) =>
          match (e :: es).mapM eduEntry with
          | .error _ => .raised
          | .ok ls => .direct (String.intercalate "\n" ls)
      | _ => resolver_tail field_type
  else if field_type = "Work Experience" then
    match get_value data sect Option.none with
    | .error _ => .raised
    | .ok v =>
      match v with
      | .list (e :: es) =>
          match (e :: es).mapM workEntry with
          | .error _ => .raised
          | .ok ls => .direct (String.intercalate "\n\n" ls)
      | _ => resolver_tail field_type
  else if field_type = "Skills" then
    match get_value data sect Option.none with
    | .error _ => .raised
    | .ok v =>
      match v with
      | .dict (e :: es) =>
          match skillsLines (e :: es) with
          | .error _ => .raised
          | .ok ls => .direct (String.intercalate "\n" ls)
      | _ => resolver_tail field_type
  else if field_type = "Projects" then
    match get_value data sect Option.none with
    | .error _ => .raised
    | .ok v =>
      match v with
      | .list (e :: es) =>
          match (e :: es).mapM projEntry with
          | .error _ => .raised
          | .ok ls => .direct (String.intercalate "\n\n" ls)
      | _ => resolver_tail field_type
  else if field_type = "Profile Summary" then
    profileSummaryStep data
  else
    resolver_tail field_type

/-- The simple direct-mapping branch of step 1 (lines 1403-1427):
`value = user_profile.get_value(section, key)` (which raises on a list-valued
section, in particular for `("work_experience", "title"/"company")` on the
shipped profile shape), then the most-recent-job special case (lines
1407-1416, reachable only if the section value was a dict whose `key` entry
is a list), then `return str(value)` when truthy, else fall to steps 2-3. -/
def simpleField (field_type sect k : String)
    (data : List (String × PyVal)) : Resolution :=
  match get_value data sect (some k) with
  | .error _ => .raised
  | .ok value =>
    if truthy value then
      let v2 : Except Unit PyVal :=
        if sect = "work_experience" then
          match value with
          | .list (v0 :: _) =>
              match pyIn k v0 with
              | .error _ => .error ()
              | .ok true => pySubscript v0 k
              | .ok false => .ok .none
          | _ => .ok value
        else .ok value
      match v2 with
      | .error _ => .raised
      | .ok w => if truthy w then .direct (pyToStr w) else resolver_tail field_type
    else resolver_tail field_type

/-- `ContextAnalyzer.generate_content` (lines 1240-1492): step 1 consults
`profile_map` on `field_type` (`context_analysis.get("field_type", "Generic
Text")` — the analysis dict always carries the key); step 2 is the Password
suppression; step 3 is model-backed generation.  The snapshot argument of the
source only feeds the generation prompt, which is never used (see
`Resolution.genRaised`), so it is not a parameter here. -/
def generate_content (ctx : Analysis) (data : List (String × PyVal)) :
    Resolution :=
  match List.lookup ctx.field_type profile_map with
  | some (sect, Option.none) => complexField ctx.field_type sect data
  | some (sect, some k) => simpleField ctx.field_type sect k data
  | Option.none => resolver_tail ctx.field_type

/-! ## String leaves of a value (for the secret-freedom invariant) -/

mutual

/-- All `str` leaves stored (at any depth) inside a value. -/
def strVals : PyVal → List String
  | .str s => [s]
  | .bool _ => []
  | .none => []
  | .list xs => strValsL xs
  | .dict es => strValsD es

/-- String leaves of the elements of a list. -/
def strValsL : List PyVal → List String
  | [] => []
  | v :: vs => strVals v ++ strValsL vs

/-- String leaves of the values of a dict. -/
def strValsD : List (String × PyVal) → List String
  | [] => []
  | (_, v) :: es => strVals v ++ strValsD es

end

/-! ## `ConfigManager` (src/autofill.py lines 426-613)

The in-memory config `self.config` is a top-level dict, modelled as
`List (String × PyVal)`.  The keyring is an external capability; only the
outcome of each keyring call matters, given as an explicit parameter.
File writes always succeed in the model (the write path has no influence on
the secret-freedom claims). -/

/-- Outcome of a `keyring.set_password` call (line 550). -/
inductive KeyringSetOutcome where
  | ok
  | err
deriving DecidableEq

/-- Outcome of a `keyring.delete_password` call (line 567):
success, `PasswordDeleteError` (no stored credential), or another error. -/
inductive KeyringDelOutcome where
  | ok
  | notFound
  | err
deriving DecidableEq

/-- Result of one `ConfigManager` operation: the in-memory config after the
operation, the serialized snapshots written to disk by it (in order), and
whether an exception propagated out of the operation (in which case `cfg` is
the in-memory state at the moment of the raise). -/
structure CfgStep where
  cfg : List (String × PyVal)
  writes : List (List (String × PyVal))
  raised : Bool

/-- `ConfigManager.save_config` with no argument (lines 512-529):

```python
config_to_save = self.config
if "llm" in config_to_save and "api_key" in config_to_save["llm"]:
    del config_to_save["llm"]["api_key"]
json.dump(config_to_save, f, ...)
```

`config_to_save` aliases `self.config`, so the `del` also strips the
in-memory config.  The membership test and the `del` are *outside* the `try`
(which starts at line 519) and raise on a non-container `llm` value. -/
def save_config (cfg : List (String × PyVal)) : CfgStep :=
  match List.lookup "llm" cfg with
  | Option.none => ⟨cfg, [cfg], false⟩
  | some llmv =>
    match pyIn "api_key" llmv with
    | .error _ => ⟨cfg, [], true⟩
    | .ok false => ⟨cfg, [cfg], false⟩
    | .ok true =>
      match llmv with
      | .dict es =>
          let cfg' := dictSet cfg "llm" (.dict (dictDel es "api_key"))
          ⟨cfg', [cfg'], false⟩
      | _ => ⟨cfg, [], true⟩

/-- `ConfigManager.set` (lines 541-591), embedded as `cfg_finish` (this
definition, the saving tail shared by all branches) and `cfg_set` (the rest
of the body).  Control flow:
* line 543-544: create the section as `{}` when absent;
* lines 547-584, `("llm", "api_key")` special case: a truthy value is sent to
  `keyring.set_password` and only the boolean `api_key_stored` flag is
  written into the config (both statements inside a `try` whose handler
  returns `False`, so a keyring failure — or a `TypeError` from a non-dict
  `llm` section — leaves the config without the flag and skips the save); a
  falsy value deletes the credential: on success or `PasswordDeleteError`
  the flag is set to `False` (a `TypeError` raised while setting the flag
  inside the `PasswordDeleteError` handler propagates), and on any other
  keyring error the flag is left untouched (line 577-579 logs only);
  the secret value itself is never assigned into the config;
* lines 586-591, standard case: `self.config[section][key] = value`
  (a `TypeError` on a non-dict section propagates), then an optional save. -/
def cfg_finish (saveFlag : Bool) (cfg2 : List (String × PyVal)) : CfgStep :=
  if saveFlag then save_config cfg2 else ⟨cfg2, [], false⟩

/-- The body of `ConfigManager.set` (see the control-flow comment above);
`cfg_finish` is its shared `if save: return self.save_config()` tail. -/
def cfg_set (cfg : List (String × PyVal)) (sect key : String) (value : PyVal)
    (saveFlag : Bool) (kset : KeyringSetOutcome) (kdel : KeyringDelOutcome) :
    CfgStep :=
  let cfg1 := if (List.lookup sect cfg).isSome then cfg
    else dictSet cfg sect (.dict [])
  let finish := cfg_finish saveFlag
  if sect = "llm" ∧ key = "api_key" then
    if truthy value then
      match kset with
      | .err => ⟨cfg1, [], false⟩
      | .ok =>
        match List.lookup "llm" cfg1 with
        | some (.dict es) =>
            finish (dictSet cfg1 "llm"
              (.dict (dictSet es "api_key_stored" (.bool true))))
        | _ => ⟨cfg1, [], false⟩
    else
      match kdel with
      | .ok =>
        match List.lookup "llm" cfg1 with
        | some (.dict es) =>
            finish (dictSet cfg1 "llm"
              (.dict (dictSet es "api_key_stored" (.bool false))))
        | _ => finish cfg1
      | .notFound =>
        match List.lookup "llm" cfg1 with
        | some (.dict es) =>
            finish (dictSet cfg1 "llm"
              (.dict (dictSet es "api_key_stored" (.bool false))))
        | _ => ⟨cfg1, [], true⟩
      | .err => finish cfg1
  else
    match List.lookup sect cfg1 with
    | some (.dict es) => finish (dictSet cfg1 sect (.dict (dictSet es key value)))
    | _ => ⟨cfg1, [], true⟩

/-- A `ConfigManager` operation: a `set` call (with the outcomes of the
keyring calls it may make) or a bare `save_config()` call. -/
inductive CfgOp where
  | setv (sect key : String) (value : PyVal) (saveFlag : Bool)
      (kset : KeyringSetOutcome) (kdel : KeyringDelOutcome)
  | save

/-- Execute one operation. -/
def runOp (cfg : List (String × PyVal)) : CfgOp → CfgStep
  | .setv sect key value saveFlag kset kdel =>
      cfg_set cfg sect key value saveFlag kset kdel
  | .save => save_config cfg

/-- Execute a sequence of operations; an operation that raises aborts the
sequence (the exception propagates to the caller).  Returns the final
in-memory config and every serialized snapshot written along the way. -/
def runOps (ops : List CfgOp) (cfg : List (String × PyVal)) :
    List (String × PyVal) × List (List (String × PyVal)) :=
  match ops with
  | [] => (cfg, [])
  | op :: rest =>
      let st := runOp cfg op
      if st.raised then (st.cfg, st.writes)
      else
        let r := runOps rest st.cfg
        (r.1, st.writes ++ r.2)

/-- The secret string does not occur anywhere among the stored values
(`strValsD` collects every string leaf of every value of the dict). -/
def secretFree (secret : String) (cfg : List (String × PyVal)) : Prop :=
  secret ∉ strValsD cfg

/-- No `"api_key"` entry under a dict-valued `"llm"` section. -/
def api_key_stripped (cfg : List (String × PyVal)) : Prop :=
  ∀ es, List.lookup "llm" cfg = some (PyVal.dict es) →
    List.lookup "api_key" es = Option.none

/-- An operation is benign for `secret` when it is a save, a credential
`set` (whose value goes to the keyring, not the config), or a `set` whose
value does not contain the secret. -/
def benignOp (secret : String) : CfgOp → Prop
  | .setv sect key value _ _ _ =>
      (sect = "llm" ∧ key = "api_key") ∨ secret ∉ strVals value
  | .save => True

/-! ## `UserProfile` persistence (src/autofill.py lines 163-313)

The profile payload type, JSON serialization (`json.dumps`/`json.loads`) and
Fernet encryption (`EncryptionManager.encrypt`/`decrypt`, lines 132-156,
which return `None` on failure) are external to the store logic and appear
as parameters; the store logic itself — which container shape is written and
which load branch fires — is translated from the source. -/

/-- The `data` entry of a profile file: absent, a ciphertext string, or a
plain JSON object (the shape the legacy plaintext container stores). -/
inductive DField (Data : Type) where
  | missing
  | cstr (s : String)
  | cdict (d : Data)

/-- A parsed profile file.  `hasVersion` is the presence of a top-level
`"version"` key (the saved encrypted container `{profile_id, data,
updated_at}` has none); the other container keys never influence loading. -/
structure ProfileFile (Data : Type) where
  hasVersion : Bool
  dataField : DField Data

/-- `UserProfile.save` (lines 282-313) in the success case (cipher available,
encryption succeeds): writes the encrypted container
`{"profile_id": ..., "data": encrypt(json.dumps(self.data)), "updated_at": ...}`
— no `"version"` key, and a *string* `data` field. -/
def profile_save {Data : Type} (dumps : Data → String)
    (encrypt : String → String) (d : Data) : ProfileFile Data :=
  { hasVersion := false, dataField := .cstr (encrypt (dumps d)) }

/-- Result of loading: the stored structure, or the freshly created default
skeleton (`_create_default_profile`, lines 253-280). -/
inductive LoadResult (Data : Type) where
  | loaded (d : Data)
  | defaulted

/-- `UserProfile._load_profile` (lines 192-251):
* missing file → default skeleton (lines 247-251);
* `"version"` present and `data` a dict → plain container, return it
  (lines 201-207);
* falsy `data` (missing or empty) → default (lines 210-215);
* string `data` → decrypt; a truthy decryption is fed to `json.loads`
  (line 221), whose failure is caught at line 222 and — the payload being a
  string, not a dict — falls through to the default (lines 231-235); a falsy
  or failed decryption also falls through to the default;
* dict-valued `data` without `"version"`: `decrypt` receives a dict, its
  internal `encrypted_data.encode()` raises `AttributeError` *inside*
  `decrypt`'s own `try` (lines 147-156), so `decrypt` returns `None` and no
  exception reaches the handler at line 222 — the dict-recovery branch at
  lines 227-229 is dead code and the load falls through to the default. -/
def load_profile {Data : Type} (decrypt : String → Option String)
    (loads : String → Option Data) :
    Option (ProfileFile Data) → LoadResult Data
  | Option.none => .defaulted
  | some f =>
    match f.hasVersion, f.dataField with
    | true, .cdict d => .loaded d
    | _, .missing => .defaulted
    | _, .cstr s =>
        if s = "" then .defaulted
        else
          match decrypt s with
          | some dj =>
              if dj = "" then .defaulted
              else
                match loads dj with
                | some d => .loaded d
                | Option.none => .defaulted
          | Option.none => .defaulted
    | false, .cdict _ => .defaulted

/-- `UserProfile.__init__` (lines 163-186): for `profile_id = "default"` a
direct read returns the `data` field when it is a dict (without decryption);
every other case — including a string `data` field, the shape `save`
writes — falls back to `_load_profile`. -/
def profile_init {Data : Type} (pid : String)
    (decrypt : String → Option String) (loads : String → Option Data)
    (file : Option (ProfileFile Data)) : LoadResult Data :=
  if pid = "default" then
    match file with
    | some f =>
        match f.dataField with
        | .cdict d => .loaded d
        | _ => load_profile decrypt loads file
    | Option.none => load_profile decrypt loads file
  else load_profile decrypt loads file

/-! ## Concrete fixtures -/

/-- A profile in the shipped skeleton shape (`_create_default_profile`,
lines 253-280) with one work-experience entry (most recent first) and the
email filled in. -/
def profile_acme : List (String × PyVal) :=
  [("basic", .dict [("name", .str ""), ("gender", .str ""),
     ("birth_year", .str ""), ("email", .str "a@b.com"), ("phone", .str ""),
     ("location", .str "")]),
   ("education", .list [.dict [("period", .str ""), ("school", .str ""),
     ("degree", .str ""), ("major", .str "")]]),
   ("work_experience", .list [.dict [("company", .str "Acme"),
     ("period", .str "2022-2024"), ("title", .str "Engineer"),
     ("highlights", .list [.str "Shipped X"])]]),
   ("projects", .list [.dict [("name", .str ""), ("description", .str ""),
     ("highlights", .list [])]]),
   ("skills", .dict [("ai_frameworks", .list []), ("hardware", .list []),
     ("certifications", .list []), ("achievements", .list [])]),
   ("portfolio", .dict [("personal_website", .str ""), ("projects", .list [])])]

/-- The snapshot of end-to-end scenario 1: `fieldLabel "Email"`, empty
surrounding text (the bridge maps `fieldLabel` to the snapshot `title`,
src/autofill_bridge.py line 63). -/
def snap_email : Snapshot := { title := "Email", surrounding_text := "" }

/-- A snapshot whose label contains both a contact keyword (`email`) and a
resume-section keyword (`company`), with resume vocabulary in the
surrounding text. -/
def snap_company_email : Snapshot :=
  { title := "Company Email",
    surrounding_text := "please complete this job application resume form" }

/-! ## Claims -/

/-- C1 (counterexample): the snapshot with field label `"password"`
(lower-case, the most direct password-like label) does *not* classify as
field_type `"Password"`: the `**self._default_analysis(label)` splat at line
1181 overwrites the rule's `"Password"` with the raw label, and resolution
then falls into the model-backed generation path instead of returning the
suppression placeholder. -/
theorem c1_password_counterexample :
    (analyze_context_deployed { title := "password" }).field_type =
      "password" ∧
    (analyze_context_deployed { title := "password" }).field_type ≠
      "Password" ∧
    generate_content (analyze_context_deployed { title := "password" })
      profile_acme = Resolution.genRaised := by
  exact ⟨rfl, by decide, rfl⟩

/-- C1 (amended): classification returns field_type equal to the *raw label*
for password-like labels (the defaults splat overwrites the rule's value),
so the suppression path is taken exactly when that field_type is the exact
string `"Password"` — e.g. a label spelled exactly `"Password"`, for any
role, surrounding text and profile; on that path resolution returns the
fixed placeholder `"******"` without entering the generation path (hence no
completion-backend call). -/
theorem c1_password_amended (role text : String)
    (data : List (String × PyVal)) (a : Analysis)
    (h : a.field_type = "Password") :
    simple_field_analysis "Password" role text =
      some (default_analysis "Password") ∧
    (default_analysis "Password").field_type = "Password" ∧
    generate_content a data = Resolution.direct "******" := by
  obtain ⟨ct, ft, st, ln⟩ := a
  simp only [Analysis.field_type] at h
  subst h
  exact ⟨rfl, rfl, rfl⟩

/-- Witness for `c1_password_amended` at label "Password", empty role/text,
the empty profile. -/
theorem c1_password_amended_witness :
    (default_analysis "Password").field_type = "Password" ∧
    (simple_field_analysis "Password" "" "" =
        some (default_analysis "Password") ∧
      (default_analysis "Password").field_type = "Password" ∧
      generate_content (default_analysis "Password") [] =
        Resolution.direct "******") :=
  ⟨rfl, c1_password_amended "" "" [] (default_analysis "Password") rfl⟩

/-- C2: end-to-end scenario 1 on the code as written.  The label `"Email"`
classifies as field_type `"Email"` (the raw label — the splat at line 996
overwrites the rule's `"Email Address"`), which has no `profile_map` entry,
so resolution bypasses `basic.email = "a@b.com"` and falls into the
generation path (which raises) instead of returning `"a@b.com"`.  The last
conjunct shows the intended classification `"Email Address"` *would* have
resolved to exactly `"a@b.com"` on the same profile. -/
theorem c2_email_scenario_code_behavior :
    analyze_context_deployed snap_email = default_analysis "Email" ∧
    (analyze_context_deployed snap_email).field_type = "Email" ∧
    generate_content (analyze_context_deployed snap_email) profile_acme =
      Resolution.genRaised ∧
    Resolution.genRaised ≠ Resolution.direct "a@b.com" ∧
    generate_content
      ⟨"Contact Information", "Email Address", "Professional", "Medium"⟩
      profile_acme = Resolution.direct "a@b.com" :=
  ⟨rfl, rfl, rfl, by decide, rfl⟩

/-- C3: the resolver is *not* exception-free: for the classification
`"Job Title"` and a profile whose `work_experience` is a list (the shipped
shape), `get_value("work_experience", "title")` raises `AttributeError`
(`.get` on a list) and `generate_content` propagates it. -/
theorem c3_resolver_raises_code_behavior :
    get_value profile_acme "work_experience" (some "title") =
      Except.error () ∧
    generate_content
      ⟨"Professional Information", "Job Title", "Professional", "Medium"⟩
      profile_acme = Resolution.raised :=
  ⟨rfl, rfl⟩

/-- C4: resolving `"Job Title"` against a profile whose most recent
work-experience entry has the non-empty title `"Engineer"` does not return
`"Engineer"` (nor fall through): it raises inside `get_value` before the
index-0 special case at lines 1407-1416 can run. -/
theorem c4_job_title_code_behavior :
    List.lookup "work_experience" profile_acme =
      some (PyVal.list [PyVal.dict [("company", PyVal.str "Acme"),
        ("period", PyVal.str "2022-2024"), ("title", PyVal.str "Engineer"),
        ("highlights", PyVal.list [PyVal.str "Shipped X"])]]) ∧
    generate_content ⟨"Resume Form", "Job Title", "Professional", "Long"⟩
      profile_acme = Resolution.raised ∧
    Resolution.raised ≠ Resolution.direct "Engineer" :=
  ⟨rfl, rfl, by decide⟩

/-- C5: the label `"Company Email"` (contact keyword `email` + resume-section
keyword `company`, resume vocabulary in the surrounding text) classifies as
neither `"Email Address"` nor `"Company Name"`: the email rule does fire
first, but the defaults splat overwrites its field_type with the raw label. -/
theorem c5_priority_code_behavior :
    (analyze_context_deployed snap_company_email).field_type =
      "Company Email" ∧
    (analyze_context_deployed snap_company_email).field_type ≠
      "Email Address" ∧
    (analyze_context_deployed snap_company_email).field_type ≠
      "Company Name" :=
  ⟨rfl, by decide, by decide⟩

/-- C6: when resolution falls through to model-backed generation (here: an
unrecognized label, hence field_type `"xyzfield"` with no profile mapping),
no error-prefixed string is returned: `generate_text` raises
`UnboundLocalError` at its first statement (line 748), before the backend
call and before the error handlers that would have produced the
`"Error..."` strings, so the resolver raises instead of returning any
string at all. -/
theorem c6_backend_failure_code_behavior :
    generate_text "prompt" = Except.error () ∧
    generate_content (default_analysis "xyzfield") [] =
      Resolution.genRaised ∧
    (∀ s : String, Resolution.genRaised ≠ Resolution.direct s) :=
  ⟨rfl, rfl, fun _ h => Resolution.noConfusion h⟩

/-- C10: `get_value` is total on profiles whose entry for the requested
section is absent or a mapping: it returns `.ok` (never raises), yielding
the stored value when present and Python `None` when the section or key is
missing. -/
theorem c10_get_value_total (data : List (String × PyVal)) (sect : String)
    (key : Option String)
    (h : List.lookup sect data = Option.none ∨
      ∃ es, List.lookup sect data = some (PyVal.dict es)) :
    ∃ v, get_value data sect key = Except.ok v ∧
      (List.lookup sect data = Option.none → v = PyVal.none) ∧
      (∀ es k, List.lookup sect data = some (PyVal.dict es) → key = some k →
        v = (List.lookup k es).getD PyVal.none) := by
  rcases h with h | ⟨es, h⟩
  · refine ⟨PyVal.none, ?_, fun _ => rfl, ?_⟩
    · unfold get_value
      rw [h]
    · intro es k hsome _
      rw [h] at hsome
      cases hsome
  · cases key with
    | none =>
        refine ⟨PyVal.none, ?_, fun _ => rfl, ?_⟩
        · unfold get_value
          rw [h]
        · intro es' k _ hk
          cases hk
    | some k =>
        refine ⟨(List.lookup k es).getD PyVal.none, ?_, ?_, ?_⟩
        · unfold get_value
          rw [h]
        · intro hn
          rw [h] at hn
          cases hn
        · intro es' k' h' hk
          rw [h] at h'
          injection h' with h2
          injection h2 with h3
          subst h3
          cases hk
          rfl

/-- Witness for `c10_get_value_total` on a concrete dict-shaped section. -/
theorem c10_get_value_total_witness :
    ∃ v, get_value [("basic", PyVal.dict [("email", PyVal.str "a@b.com")])]
        "basic" (some "email") = Except.ok v ∧
      (List.lookup "basic"
          [("basic", PyVal.dict [("email", PyVal.str "a@b.com")])] =
        Option.none → v = PyVal.none) ∧
      (∀ es k, List.lookup "basic"
          [("basic", PyVal.dict [("email", PyVal.str "a@b.com")])] =
          some (PyVal.dict es) → some "email" = some k →
        v = (List.lookup k es).getD PyVal.none) :=
  c10_get_value_total _ "basic" (some "email") (Or.inr ⟨_, rfl⟩)

/-- The failure conditions of the model-backed classification pass: the
`generate_text` call raised; or its response contains no JSON-looking span;
or the span does not parse; or the parsed object is missing one of the four
required keys. -/
def validate_failed : Option (List (String × String)) → Prop
  | Option.none => True
  | some obj =>
      ((List.lookup "content_type" obj).isSome &&
        (List.lookup "field_type" obj).isSome &&
        (List.lookup "recommended_style" obj).isSome &&
        (List.lookup "recommended_length" obj).isSome) = false

/-- See `validate_failed` for the parse-level failures. -/
def llm_pass_failed (parse : String → Option (List (String × String))) :
    LLMOutcome → Prop
  | .raisesExc => True
  | .returns s =>
      match extract_json_span s with
      | Option.none => True
      | some js => validate_failed (parse js)

/-- C7: classification never fails.  Whenever the deterministic pass is
inconclusive and the model-backed pass fails in any of the claimed ways
(raises, returns no parseable JSON object, or returns JSON missing a
required key), `analyze_context` returns exactly the default fallback:
field_type equal to the raw label (or `"Generic Text"` when the label is
`"Unknown"`), content_type `"Unknown"`, style `"Professional"`, length
`"Medium"`. -/
theorem c7_classification_fallback
    (parse : String → Option (List (String × String)))
    (outcome : LLMOutcome) (info : Snapshot)
    (hsimple : simple_field_analysis (snap_field_label info)
      (snap_field_role info) (snap_text info) = Option.none)
    (hfail : llm_pass_failed parse outcome) :
    analyze_context parse outcome info =
      default_analysis (snap_field_label info) ∧
    default_analysis (snap_field_label info) =
      ⟨"Unknown",
        if snap_field_label info ≠ "Unknown" then snap_field_label info
        else "Generic Text",
        "Professional", "Medium"⟩ := by
  have hpass : llm_analysis_pass parse (snap_field_label info) outcome =
      default_analysis (snap_field_label info) := by
    cases outcome with
    | raisesExc => rfl
    | returns s =>
        simp only [llm_analysis_pass]
        simp only [llm_pass_failed] at hfail
        cases hx : extract_json_span s with
        | none => rfl
        | some js =>
            rw [hx] at hfail
            have hfail' : validate_failed (parse js) := hfail
            show validate_analysis (snap_field_label info) (parse js) =
              default_analysis (snap_field_label info)
            cases hp : parse js with
            | none => rfl
            | some obj =>
                rw [hp] at hfail'
                have h2 : ((List.lookup "content_type" obj).isSome &&
                    (List.lookup "field_type" obj).isSome &&
                    (List.lookup "recommended_style" obj).isSome &&
                    (List.lookup "recommended_length" obj).isSome) = false :=
                  hfail'
                simp only [validate_analysis, h2, Bool.false_eq_true,
                  if_false]
  refine ⟨?_, rfl⟩
  unfold analyze_context
  rw [hsimple, hpass]

set_option maxRecDepth 2000 in
/-- Witness for `c7_classification_fallback`: an unrecognized label with a
raising model pass. -/
theorem c7_classification_fallback_witness :
    analyze_context (fun _ => Option.none) LLMOutcome.raisesExc
      ⟨"", "", "qqqq", "", "", "", ""⟩ =
      default_analysis (snap_field_label ⟨"", "", "qqqq", "", "", "", ""⟩) ∧
    default_analysis (snap_field_label ⟨"", "", "qqqq", "", "", "", ""⟩) =
      ⟨"Unknown",
        if snap_field_label ⟨"", "", "qqqq", "", "", "", ""⟩ ≠ "Unknown" then
          snap_field_label ⟨"", "", "qqqq", "", "", "", ""⟩
        else "Generic Text",
        "Professional", "Medium"⟩ :=
  c7_classification_fallback (fun _ => Option.none) LLMOutcome.raisesExc
    ⟨"", "", "qqqq", "", "", "", ""⟩
    (by
      rw [show snap_field_label ⟨"", "", "qqqq", "", "", "", ""⟩ = "qqqq"
          from rfl,
        show snap_field_role ⟨"", "", "qqqq", "", "", "", ""⟩ = "Unknown"
          from rfl,
        show snap_text ⟨"", "", "qqqq", "", "", "", ""⟩ = "" from rfl]
      simp [simple_field_analysis, anyKw, strContains, charsContain, pyLower,
        lowerChar, List.isPrefixOf, List.any])
    trivial

/-- C9: profile round-trip.  For arbitrary payloads `d` (any type, covering
empty lists and unicode text), given that decryption inverts encryption on
the saved ciphertext, that `json.loads` inverts `json.dumps` on the saved
payload, and that ciphertext and JSON text are non-empty (Fernet tokens and
`json.dumps` output always are), loading a `UserProfile` for any profile id
from the file written by `save()` yields exactly the saved structure. -/
theorem c9_profile_roundtrip {Data : Type}
    (dumps : Data → String) (encrypt : String → String)
    (decrypt : String → Option String) (loads : String → Option Data)
    (d : Data) (pid : String)
    (hdec : decrypt (encrypt (dumps d)) = some (dumps d))
    (hloads : loads (dumps d) = some d)
    (henc : encrypt (dumps d) ≠ "")
    (hdumps : dumps d ≠ "") :
    profile_init pid decrypt loads (some (profile_save dumps encrypt d)) =
      LoadResult.loaded d := by
  have hload : load_profile decrypt loads
      (some (profile_save dumps encrypt d)) = LoadResult.loaded d := by
    show (if encrypt (dumps d) = "" then LoadResult.defaulted
      else
        match decrypt (encrypt (dumps d)) with
        | some dj =>
            if dj = "" then LoadResult.defaulted
            else
              match loads dj with
              | some d' => LoadResult.loaded d'
              | Option.none => LoadResult.defaulted
        | Option.none => LoadResult.defaulted) = LoadResult.loaded d
    rw [if_neg henc, hdec]
    show (if dumps d = "" then LoadResult.defaulted
      else
        match loads (dumps d) with
        | some d' => LoadResult.loaded d'
        | Option.none => LoadResult.defaulted) = LoadResult.loaded d
    rw [if_neg hdumps, hloads]
  unfold profile_init profile_save
  by_cases hp : pid = "default"
  · rw [if_pos hp]
    exact hload
  · rw [if_neg hp]
    exact hload

/-- Witness for `c9_profile_roundtrip` with unicode payload `"héllo 名"` and
concrete tagging serializers. -/
theorem c9_profile_roundtrip_witness :
    profile_init "default"
      (fun s => if s = "ECT" then some "Dhéllo 名" else Option.none)
      (fun s => if s = "Dhéllo 名" then some "héllo 名" else Option.none)
      (some (profile_save (fun s => "D" ++ s) (fun _ => "ECT") "héllo 名")) =
      LoadResult.loaded "héllo 名" :=
  c9_profile_roundtrip (fun s => "D" ++ s) (fun _ => "ECT")
    (fun s => if s = "ECT" then some "Dhéllo 名" else Option.none)
    (fun s => if s = "Dhéllo 名" then some "héllo 名" else Option.none)
    "héllo 名" "default" (by decide) (by decide) (by decide) (by decide)

/-! ## Secret-freedom lemmas for the config store -/

/-- Every string leaf of a dict after a `dictSet` came from the old dict or
from the newly stored value. -/
theorem strValsD_dictSet_subset (d : List (String × PyVal)) (k : String)
    (v : PyVal) :
    ∀ x ∈ strValsD (dictSet d k v), x ∈ strValsD d ∨ x ∈ strVals v := by
  induction d with
  | nil =>
      intro x hx
      simp only [dictSet, strValsD, strVals, List.append_nil] at hx
      exact Or.inr hx
  | cons e rest ih =>
      obtain ⟨k', v'⟩ := e
      intro x hx
      by_cases hk : k' = k
      · simp only [dictSet, if_pos hk, strValsD] at hx
        rcases List.mem_append.mp hx with h | h
        · exact Or.inr h
        · exact Or.inl (by
            simp only [strValsD]
            exact List.mem_append.mpr (Or.inr h))
      · simp only [dictSet, if_neg hk, strValsD] at hx
        rcases List.mem_append.mp hx with h | h
        · exact Or.inl (by
            simp only [strValsD]
            exact List.mem_append.mpr (Or.inl h))
        · rcases ih x h with h2 | h2
          · exact Or.inl (by
              simp only [strValsD]
              exact List.mem_append.mpr (Or.inr h2))
          · exact Or.inr h2

/-- `dictDel` only removes leaves. -/
theorem strValsD_dictDel_subset (d : List (String × PyVal)) (k : String) :
    ∀ x ∈ strValsD (dictDel d k), x ∈ strValsD d := by
  induction d with
  | nil =>
      intro x hx
      simp [dictDel, strValsD] at hx
  | cons e rest ih =>
      obtain ⟨k', v'⟩ := e
      intro x hx
      by_cases hk : k' = k
      · rw [show dictDel ((k', v') :: rest) k = dictDel rest k by
            simp [dictDel, List.filter_cons, hk]] at hx
        simp only [strValsD]
        exact List.mem_append.mpr (Or.inr (ih x hx))
      · rw [show dictDel ((k', v') :: rest) k = (k', v') :: dictDel rest k by
            simp [dictDel, List.filter_cons, hk]] at hx
        simp only [strValsD] at hx ⊢
        rcases List.mem_append.mp hx with h | h
        · exact List.mem_append.mpr (Or.inl h)
        · exact List.mem_append.mpr (Or.inr (ih x h))

/-- A value found by lookup contributes its leaves to the dict's leaves. -/
theorem lookup_strVals_subset (d : List (String × PyVal)) (k : String)
    (v : PyVal) (hl : List.lookup k d = some v) :
    ∀ x ∈ strVals v, x ∈ strValsD d := by
  induction d with
  | nil => cases hl
  | cons e rest ih =>
      obtain ⟨k', v'⟩ := e
      intro x hx
      simp only [List.lookup] at hl
      cases hbeq : k == k' with
      | true =>
          rw [hbeq] at hl
          have hv : v' = v := by injection hl
          subst hv
          simp only [strValsD]
          exact List.mem_append.mpr (Or.inl hx)
      | false =>
          rw [hbeq] at hl
          simp only [strValsD]
          exact List.mem_append.mpr (Or.inr (ih hl x hx))

/-- Looking up the just-assigned key finds the new value. -/
theorem lookup_dictSet_self (d : List (String × PyVal)) (k : String)
    (v : PyVal) : List.lookup k (dictSet d k v) = some v := by
  induction d with
  | nil => simp [dictSet, List.lookup]
  | cons e rest ih =>
      obtain ⟨k', v'⟩ := e
      by_cases hk : k' = k
      · simp [dictSet, hk, List.lookup]
      · simp only [dictSet, if_neg hk, List.lookup]
        rw [show (k == k') = false by simp [Ne.symm hk]]
        exact ih

/-- Assigning one key leaves the lookup of any other key unchanged. -/
theorem lookup_dictSet_ne (d : List (String × PyVal)) (k : String)
    (v : PyVal) (k' : String) (h : k' ≠ k) :
    List.lookup k' (dictSet d k v) = List.lookup k' d := by
  induction d with
  | nil =>
      simp only [dictSet, List.lookup]
      rw [show (k' == k) = false by simp [h]]
  | cons e rest ih =>
      obtain ⟨k0, v0⟩ := e
      by_cases hk : k0 = k
      · subst hk
        simp only [dictSet, if_pos rfl, List.lookup]
        rw [show (k' == k0) = false by simp [h]]
      · simp only [dictSet, if_neg hk, List.lookup]
        cases hbeq : k' == k0 with
        | true => rfl
        | false => exact ih

/-- Deleting a key makes its lookup fail. -/
theorem lookup_dictDel_self (d : List (String × PyVal)) (k : String) :
    List.lookup k (dictDel d k) = Option.none := by
  induction d with
  | nil => rfl
  | cons e rest ih =>
      obtain ⟨k0, v0⟩ := e
      by_cases hk : k0 = k
      · rw [show dictDel ((k0, v0) :: rest) k = dictDel rest k by
            simp [dictDel, List.filter_cons, hk]]
        exact ih
      · rw [show dictDel ((k0, v0) :: rest) k = (k0, v0) :: dictDel rest k by
            simp [dictDel, List.filter_cons, hk]]
        simp only [List.lookup]
        rw [show (k == k0) = false by simp [Ne.symm hk]]
        exact ih

/-- `save_config` preserves secret-freedom, and everything it writes is both
secret-free and stripped of any `llm.api_key` entry. -/
theorem save_config_ok (secret : String) (cfg : List (String × PyVal))
    (h : secretFree secret cfg) :
    secretFree secret (save_config cfg).cfg ∧
    ∀ w ∈ (save_config cfg).writes, secretFree secret w ∧
      api_key_stripped w := by
  cases hl : List.lookup "llm" cfg with
  | none =>
      simp only [save_config, hl]
      refine ⟨h, ?_⟩
      intro w hw
      simp only [List.mem_singleton] at hw
      subst hw
      refine ⟨h, ?_⟩
      intro es hes
      rw [hl] at hes
      cases hes
  | some llmv =>
      cases llmv with
      | dict es =>
          cases hlk : List.lookup "api_key" es with
          | none =>
              simp only [save_config, hl, pyIn, hlk, Option.isSome]
              refine ⟨h, ?_⟩
              intro w hw
              simp only [List.mem_singleton] at hw
              subst hw
              refine ⟨h, ?_⟩
              intro es' hes'
              rw [hl] at hes'
              injection hes' with h1
              injection h1 with h2
              subst h2
              exact hlk
          | some av =>
              simp only [save_config, hl, pyIn, hlk, Option.isSome]
              have hfree : secretFree secret
                  (dictSet cfg "llm" (PyVal.dict (dictDel es "api_key"))) := by
                intro hx
                rcases strValsD_dictSet_subset cfg "llm"
                    (PyVal.dict (dictDel es "api_key")) secret hx with h1 | h1
                · exact h h1
                · have h2 : secret ∈ strValsD (dictDel es "api_key") := h1
                  have h3 : secret ∈ strValsD es :=
                    strValsD_dictDel_subset es "api_key" secret h2
                  exact h (lookup_strVals_subset cfg "llm" (PyVal.dict es)
                    hl secret h3)
              refine ⟨hfree, ?_⟩
              intro w hw
              simp only [List.mem_singleton] at hw
              subst hw
              refine ⟨hfree, ?_⟩
              intro es' hes'
              rw [lookup_dictSet_self] at hes'
              injection hes' with h1
              injection h1 with h2
              subst h2
              exact lookup_dictDel_self es "api_key"
      | str s =>
          cases hb : strContains s "api_key" with
          | false =>
              simp only [save_config, hl, pyIn, hb]
              refine ⟨h, ?_⟩
              intro w hw
              simp only [List.mem_singleton] at hw
              subst hw
              refine ⟨h, ?_⟩
              intro es hes
              rw [hl] at hes
              cases hes
          | true =>
              simp only [save_config, hl, pyIn, hb]
              exact ⟨h, by intro w hw; cases hw⟩
      | list xs =>
          cases hb : xs.any (fun v => match v with
              | PyVal.str s => s = "api_key"
              | _ => false) with
          | false =>
              simp only [save_config, hl, pyIn, hb]
              refine ⟨h, ?_⟩
              intro w hw
              simp only [List.mem_singleton] at hw
              subst hw
              refine ⟨h, ?_⟩
              intro es hes
              rw [hl] at hes
              cases hes
          | true =>
              simp only [save_config, hl, pyIn, hb]
              exact ⟨h, by intro w hw; cases hw⟩
      | bool b =>
          simp only [save_config, hl, pyIn]
          exact ⟨h, by intro w hw; cases hw⟩
      | none =>
          simp only [save_config, hl, pyIn]
          exact ⟨h, by intro w hw; cases hw⟩

/-- `dictSet` with a secret-free value preserves secret-freedom. -/
theorem secretFree_dictSet (secret : String) (d : List (String × PyVal))
    (k : String) (v : PyVal) (h1 : secret ∉ strValsD d)
    (h2 : secret ∉ strVals v) : secret ∉ strValsD (dictSet d k v) :=
  fun hx => (strValsD_dictSet_subset d k v secret hx).elim h1 h2

/-- Setting the boolean flag inside the `llm` section dict preserves
secret-freedom of the whole config. -/
theorem secretFree_setflag (secret : String) (cfg1 : List (String × PyVal))
    (es : List (String × PyVal)) (b : Bool)
    (h1 : secretFree secret cfg1)
    (hl : List.lookup "llm" cfg1 = some (PyVal.dict es)) :
    secretFree secret (dictSet cfg1 "llm"
      (PyVal.dict (dictSet es "api_key_stored" (PyVal.bool b)))) := by
  refine secretFree_dictSet secret cfg1 "llm" _ h1 ?_
  intro hx
  have h3 : secret ∈ strValsD (dictSet es "api_key_stored" (PyVal.bool b)) :=
    hx
  rcases strValsD_dictSet_subset es _ _ secret h3 with h4 | h4
  · exact h1 (lookup_strVals_subset cfg1 "llm" (PyVal.dict es) hl secret h4)
  · simp [strVals] at h4

/-- `cfg_finish` preserves secret-freedom and writes only stripped,
secret-free snapshots. -/
theorem cfg_finish_ok (secret : String) (saveFlag : Bool)
    (cfg2 : List (String × PyVal)) (h : secretFree secret cfg2) :
    secretFree secret (cfg_finish saveFlag cfg2).cfg ∧
    ∀ w ∈ (cfg_finish saveFlag cfg2).writes, secretFree secret w ∧
      api_key_stripped w := by
  cases saveFlag with
  | true =>
      simp only [cfg_finish, if_true]
      exact save_config_ok secret cfg2 h
  | false =>
      simp only [cfg_finish, Bool.false_eq_true, if_false]
      exact ⟨h, fun w hw => nomatch hw⟩

/-- `cfg_set` preserves secret-freedom whenever the operation is benign (a
credential set — whose value goes only to the keyring — or a set of a
secret-free value), and everything it writes is secret-free and stripped. -/
theorem cfg_set_ok (secret : String) (cfg : List (String × PyVal))
    (sect key : String) (value : PyVal) (saveFlag : Bool)
    (kset : KeyringSetOutcome) (kdel : KeyringDelOutcome)
    (h : secretFree secret cfg)
    (hb : (sect = "llm" ∧ key = "api_key") ∨ secret ∉ strVals value) :
    secretFree secret (cfg_set cfg sect key value saveFlag kset kdel).cfg ∧
    ∀ w ∈ (cfg_set cfg sect key value saveFlag kset kdel).writes,
      secretFree secret w ∧ api_key_stripped w := by
  by_cases hspec : sect = "llm" ∧ key = "api_key"
  · obtain ⟨hs1, hs2⟩ := hspec
    subst hs1
    subst hs2
    cases hl : List.lookup "llm" cfg with
    | some v0 =>
        cases htr : truthy value with
        | true =>
            cases kset with
            | err =>
                simp only [cfg_set, hl, Option.isSome, htr, and_self,
                  eq_self_iff_true, if_true, Bool.false_eq_true, if_false]
                exact ⟨h, fun w hw => nomatch hw⟩
            | ok =>
                cases v0 with
                | dict es =>
                    simp only [cfg_set, hl, Option.isSome, htr, and_self,
                      eq_self_iff_true, if_true, Bool.false_eq_true, if_false]
                    exact cfg_finish_ok secret saveFlag _
                      (secretFree_setflag secret cfg es true h hl)
                | str s =>
                    simp only [cfg_set, hl, Option.isSome, htr, and_self,
                      eq_self_iff_true, if_true, Bool.false_eq_true, if_false]
                    exact ⟨h, fun w hw => nomatch hw⟩
                | list xs =>
                    simp only [cfg_set, hl, Option.isSome, htr, and_self,
                      eq_self_iff_true, if_true, Bool.false_eq_true, if_false]
                    exact ⟨h, fun w hw => nomatch hw⟩
                | bool b =>
                    simp only [cfg_set, hl, Option.isSome, htr, and_self,
                      eq_self_iff_true, if_true, Bool.false_eq_true, if_false]
                    exact ⟨h, fun w hw => nomatch hw⟩
                | none =>
                    simp only [cfg_set, hl, Option.isSome, htr, and_self,
                      eq_self_iff_true, if_true, Bool.false_eq_true, if_false]
                    exact ⟨h, fun w hw => nomatch hw⟩
        | false =>
            cases kdel with
            | ok =>
                cases v0 with
                | dict es =>
                    simp only [cfg_set, hl, Option.isSome, htr, and_self,
                      eq_self_iff_true, if_true, Bool.false_eq_true, if_false]
                    exact cfg_finish_ok secret saveFlag _
                      (secretFree_setflag secret cfg es false h hl)
                | str s =>
                    simp only [cfg_set, hl, Option.isSome, htr, and_self,
                      eq_self_iff_true, if_true, Bool.false_eq_true, if_false]
                    exact cfg_finish_ok secret saveFlag cfg h
                | list xs =>
                    simp only [cfg_set, hl, Option.isSome, htr, and_self,
                      eq_self_iff_true, if_true, Bool.false_eq_true, if_false]
                    exact cfg_finish_ok secret saveFlag cfg h
                | bool b =>
                    simp only [cfg_set, hl, Option.isSome, htr, and_self,
                      eq_self_iff_true, if_true, Bool.false_eq_true, if_false]
                    exact cfg_finish_ok secret saveFlag cfg h
                | none =>
                    simp only [cfg_set, hl, Option.isSome, htr, and_self,
                      eq_self_iff_true, if_true, Bool.false_eq_true, if_false]
                    exact cfg_finish_ok secret saveFlag cfg h
            | notFound =>
                cases v0 with
                | dict es =>
                    simp only [cfg_set, hl, Option.isSome, htr, and_self,
                      eq_self_iff_true, if_true, Bool.false_eq_true, if_false]
                    exact cfg_finish_ok secret saveFlag _
                      (secretFree_setflag secret cfg es false h hl)
                | str s =>
                    simp only [cfg_set, hl, Option.isSome, htr, and_self,
                      eq_self_iff_true, if_true, Bool.false_eq_true, if_false]
                    exact ⟨h, fun w hw => nomatch hw⟩
                | list xs =>
                    simp only [cfg_set, hl, Option.isSome, htr, and_self,
                      eq_self_iff_true, if_true, Bool.false_eq_true, if_false]
                    exact ⟨h, fun w hw => nomatch hw⟩
                | bool b =>
                    simp only [cfg_set, hl, Option.isSome, htr, and_self,
                      eq_self_iff_true, if_true, Bool.false_eq_true, if_false]
                    exact ⟨h, fun w hw => nomatch hw⟩
                | none =>
                    simp only [cfg_set, hl, Option.isSome, htr, and_self,
                      eq_self_iff_true, if_true, Bool.false_eq_true, if_false]
                    exact ⟨h, fun w hw => nomatch hw⟩
            | err =>
                simp only [cfg_set, hl, Option.isSome, htr, and_self,
                  eq_self_iff_true, if_true, Bool.false_eq_true, if_false]
                exact cfg_finish_ok secret saveFlag cfg h
    | none =>
        have h1 : secretFree secret (dictSet cfg "llm" (PyVal.dict [])) :=
          secretFree_dictSet secret cfg "llm" _ h
            (by simp [strVals, strValsD])
        have hl1 : List.lookup "llm" (dictSet cfg "llm" (PyVal.dict [])) =
            some (PyVal.dict []) := lookup_dictSet_self cfg "llm" _
        cases htr : truthy value with
        | true =>
            cases kset with
            | err =>
                simp only [cfg_set, hl, Option.isSome, htr, and_self,
                  eq_self_iff_true, if_true, Bool.false_eq_true, if_false]
                exact ⟨h1, fun w hw => nomatch hw⟩
            | ok =>
                simp only [cfg_set, hl, Option.isSome, htr, and_self,
                  eq_self_iff_true, if_true, Bool.false_eq_true, if_false, hl1]
                exact cfg_finish_ok secret saveFlag _
                  (secretFree_setflag secret _ [] true h1 hl1)
        | false =>
            cases kdel with
            | ok =>
                simp only [cfg_set, hl, Option.isSome, htr, and_self,
                  eq_self_iff_true, if_true, Bool.false_eq_true, if_false, hl1]
                exact cfg_finish_ok secret saveFlag _
                  (secretFree_setflag secret _ [] false h1 hl1)
            | notFound =>
                simp only [cfg_set, hl, Option.isSome, htr, and_self,
                  eq_self_iff_true, if_true, Bool.false_eq_true, if_false, hl1]
                exact cfg_finish_ok secret saveFlag _
                  (secretFree_setflag secret _ [] false h1 hl1)
            | err =>
                simp only [cfg_set, hl, Option.isSome, htr, and_self,
                  eq_self_iff_true, if_true, Bool.false_eq_true, if_false]
                exact cfg_finish_ok secret saveFlag _ h1
  · have hbv : secret ∉ strVals value := hb.resolve_left hspec
    cases hl : List.lookup sect cfg with
    | some v0 =>
        cases v0 with
        | dict es =>
            simp only [cfg_set, hl, Option.isSome, if_neg hspec, if_true, Bool.false_eq_true, if_false]
            refine cfg_finish_ok secret saveFlag _ ?_
            refine secretFree_dictSet secret cfg sect _ h ?_
            intro hx
            have h3 : secret ∈ strValsD (dictSet es key value) := hx
            rcases strValsD_dictSet_subset es key value secret h3 with h4 | h4
            · exact h (lookup_strVals_subset cfg sect (PyVal.dict es) hl
                secret h4)
            · exact hbv h4
        | str s =>
            simp only [cfg_set, hl, Option.isSome, if_neg hspec, if_true, Bool.false_eq_true, if_false]
            exact ⟨h, fun w hw => nomatch hw⟩
        | list xs =>
            simp only [cfg_set, hl, Option.isSome, if_neg hspec, if_true, Bool.false_eq_true, if_false]
            exact ⟨h, fun w hw => nomatch hw⟩
        | bool b =>
            simp only [cfg_set, hl, Option.isSome, if_neg hspec, if_true, Bool.false_eq_true, if_false]
            exact ⟨h, fun w hw => nomatch hw⟩
        | none =>
            simp only [cfg_set, hl, Option.isSome, if_neg hspec, if_true, Bool.false_eq_true, if_false]
            exact ⟨h, fun w hw => nomatch hw⟩
    | none =>
        have h1 : secretFree secret (dictSet cfg sect (PyVal.dict [])) :=
          secretFree_dictSet secret cfg sect _ h
            (by simp [strVals, strValsD])
        have hl1 : List.lookup sect (dictSet cfg sect (PyVal.dict [])) =
            some (PyVal.dict []) := lookup_dictSet_self cfg sect _
        simp only [cfg_set, hl, Option.isSome, Bool.false_eq_true, if_false, if_neg hspec, hl1]
        refine cfg_finish_ok secret saveFlag _ ?_
        refine secretFree_dictSet secret _ sect _ h1 ?_
        intro hx
        have h3 : secret ∈
            strValsD (dictSet ([] : List (String × PyVal)) key value) := hx
        rcases strValsD_dictSet_subset [] key value secret h3 with h4 | h4
        · simp [strValsD] at h4
        · exact hbv h4

/-- Any benign operation sequence preserves secret-freedom, and every
serialized snapshot written along the way is secret-free and stripped. -/
theorem runOps_ok (secret : String) (ops : List CfgOp)
    (cfg : List (String × PyVal)) (h : secretFree secret cfg)
    (hb : ∀ op ∈ ops, benignOp secret op) :
    secretFree secret (runOps ops cfg).1 ∧
    ∀ w ∈ (runOps ops cfg).2, secretFree secret w ∧ api_key_stripped w := by
  induction ops generalizing cfg with
  | nil => exact ⟨h, fun w hw => nomatch hw⟩
  | cons op rest ih =>
      have hop : secretFree secret (runOp cfg op).cfg ∧
          ∀ w ∈ (runOp cfg op).writes, secretFree secret w ∧
            api_key_stripped w := by
        cases op with
        | setv sect key value saveFlag kset kdel =>
            exact cfg_set_ok secret cfg sect key value saveFlag kset kdel h
              (hb _ (List.mem_cons_self _ _))
        | save => exact save_config_ok secret cfg h
      simp only [runOps]
      cases hr : (runOp cfg op).raised with
      | true =>
          simp only [hr, if_true]
          exact hop
      | false =>
          simp only [hr, Bool.false_eq_true, if_false]
          have hrest := ih (runOp cfg op).cfg hop.1
            (fun o ho => hb o (List.mem_cons_of_mem _ ho))
          refine ⟨hrest.1, ?_⟩
          intro w hw
          rcases List.mem_append.mp hw with h1 | h1
          · exact hop.2 w h1
          · exact hrest.2 w h1

/-- Every snapshot `save_config` writes has no `api_key` entry under a
dict-valued `llm` section (the defensive strip at lines 516-517), for every
starting config. -/
theorem save_config_stripped (cfg : List (String × PyVal)) :
    ∀ w ∈ (save_config cfg).writes, api_key_stripped w := by
  cases hl : List.lookup "llm" cfg with
  | none =>
      simp only [save_config, hl]
      intro w hw
      simp only [List.mem_singleton] at hw
      subst hw
      intro es hes
      rw [hl] at hes
      cases hes
  | some llmv =>
      cases llmv with
      | dict es =>
          cases hlk : List.lookup "api_key" es with
          | none =>
              simp only [save_config, hl, pyIn, hlk, Option.isSome]
              intro w hw
              simp only [List.mem_singleton] at hw
              subst hw
              intro es' hes'
              rw [hl] at hes'
              injection hes' with h1
              injection h1 with h2
              subst h2
              exact hlk
          | some av =>
              simp only [save_config, hl, pyIn, hlk, Option.isSome]
              intro w hw
              simp only [List.mem_singleton] at hw
              subst hw
              intro es' hes'
              rw [lookup_dictSet_self] at hes'
              injection hes' with h1
              injection h1 with h2
              subst h2
              exact lookup_dictDel_self es "api_key"
      | str s =>
          cases hb : strContains s "api_key" with
          | false =>
              simp only [save_config, hl, pyIn, hb]
              intro w hw
              simp only [List.mem_singleton] at hw
              subst hw
              intro es hes
              rw [hl] at hes
              cases hes
          | true =>
              simp only [save_config, hl, pyIn, hb]
              intro w hw
              cases hw
      | list xs =>
          cases hb : xs.any (fun v => match v with
              | PyVal.str s => s = "api_key"
              | _ => false) with
          | false =>
              simp only [save_config, hl, pyIn, hb]
              intro w hw
              simp only [List.mem_singleton] at hw
              subst hw
              intro es hes
              rw [hl] at hes
              cases hes
          | true =>
              simp only [save_config, hl, pyIn, hb]
              intro w hw
              cases hw
      | bool b =>
          simp only [save_config, hl, pyIn]
          intro w hw
          cases hw
      | none =>
          simp only [save_config, hl, pyIn]
          intro w hw
          cases hw

/-- C8: the LLM secret never appears in the configuration.
(1) Starting from a config without the secret, any sequence of `set` and
`save_config` operations in which every non-credential `set` stores a
secret-free value keeps the in-memory config secret-free, and every
serialized snapshot is secret-free and has no `api_key` under `llm`;
(2) `set("llm", "api_key", secret)` (non-empty secret, keyring succeeding)
only toggles `api_key_stored` to `True` in the `llm` section — the stored
`api_key` entry itself is untouched (the secret goes to the keyring), and no
exception propagates;
(3) `save_config` deletes any `api_key` key under `llm` before writing,
whatever the config. -/
theorem c8_secret_never_in_config :
    (∀ (secret : String) (cfg0 : List (String × PyVal)) (ops : List CfgOp),
      secretFree secret cfg0 → (∀ op ∈ ops, benignOp secret op) →
      secretFree secret (runOps ops cfg0).1 ∧
      ∀ w ∈ (runOps ops cfg0).2, secretFree secret w ∧
        api_key_stripped w) ∧
    (∀ (cfg es : List (String × PyVal)) (s : String)
      (kdel : KeyringDelOutcome),
      List.lookup "llm" cfg = some (PyVal.dict es) → s ≠ "" →
      (cfg_set cfg "llm" "api_key" (PyVal.str s) false
          KeyringSetOutcome.ok kdel).cfg =
        dictSet cfg "llm"
          (PyVal.dict (dictSet es "api_key_stored" (PyVal.bool true))) ∧
      List.lookup "llm" (cfg_set cfg "llm" "api_key" (PyVal.str s) false
          KeyringSetOutcome.ok kdel).cfg =
        some (PyVal.dict (dictSet es "api_key_stored" (PyVal.bool true))) ∧
      List.lookup "api_key_stored"
          (dictSet es "api_key_stored" (PyVal.bool true)) =
        some (PyVal.bool true) ∧
      List.lookup "api_key"
          (dictSet es "api_key_stored" (PyVal.bool true)) =
        List.lookup "api_key" es ∧
      (cfg_set cfg "llm" "api_key" (PyVal.str s) false
          KeyringSetOutcome.ok kdel).raised = false) ∧
    (∀ cfg : List (String × PyVal),
      ∀ w ∈ (save_config cfg).writes, api_key_stripped w) := by
  refine ⟨fun secret cfg0 ops h hb => runOps_ok secret ops cfg0 h hb, ?_,
    save_config_stripped⟩
  intro cfg es s kdel hl hs
  have htr : truthy (PyVal.str s) = true := by simp [truthy, hs]
  have hstep : cfg_set cfg "llm" "api_key" (PyVal.str s) false
      KeyringSetOutcome.ok kdel =
      ⟨dictSet cfg "llm"
        (PyVal.dict (dictSet es "api_key_stored" (PyVal.bool true))),
       [], false⟩ := by
    simp only [cfg_set, hl, Option.isSome, htr, and_self, eq_self_iff_true,
      if_true, Bool.false_eq_true, if_false, cfg_finish]
  rw [hstep]
  exact ⟨rfl, lookup_dictSet_self cfg "llm" _,
    lookup_dictSet_self es "api_key_stored" _,
    lookup_dictSet_ne es "api_key_stored" (PyVal.bool true) "api_key"
      (by decide), rfl⟩

/-- Witness for `c8_secret_never_in_config` at concrete inputs: an empty
benign history, and a credential `set` of `"SECRET"` on the default-shaped
`llm` section. -/
theorem c8_secret_never_in_config_witness :
    (secretFree "SECRET" (runOps [] []).1 ∧
      ∀ w ∈ (runOps [] []).2, secretFree "SECRET" w ∧ api_key_stripped w) ∧
    ((cfg_set [("llm", PyVal.dict [("provider", PyVal.str "openai")])] "llm"
        "api_key" (PyVal.str "SECRET") false KeyringSetOutcome.ok
        KeyringDelOutcome.ok).cfg =
      dictSet [("llm", PyVal.dict [("provider", PyVal.str "openai")])] "llm"
        (PyVal.dict (dictSet [("provider", PyVal.str "openai")]
          "api_key_stored" (PyVal.bool true)))) ∧
    ∀ w ∈ (save_config [("llm", PyVal.dict [("api_key",
        PyVal.str "SECRET")])]).writes, api_key_stripped w :=
  ⟨c8_secret_never_in_config.1 "SECRET" [] []
      (fun hx => nomatch hx) (fun op ho => nomatch ho),
    (c8_secret_never_in_config.2.1
      [("llm", PyVal.dict [("provider", PyVal.str "openai")])]
      [("provider", PyVal.str "openai")] "SECRET" KeyringDelOutcome.ok
      rfl (by decide)).1,
    c8_secret_never_in_config.2.2
      [("llm", PyVal.dict [("api_key", PyVal.str "SECRET")])]⟩
